import Mathlib

/-!
Verification of the GenericFlexiblityModel repository (Python) against its
natural-language specification, via a shallow embedding in Lean 4.

Python floats are modelled by `ℚ`; the integer time index by `ℤ`.
Methods that mutate `self` are modelled as functions from the object's state
to its new state (plus a result where the method returns one); methods that
can raise are modelled with `Except String`.

Embedded modules:
  * `flex_model/core/flex_unit.py`      — `FlexUnit`
  * `flex_model/assets/balancing_market.py` — `BalancingMarketCost`,
    `BalancingMarketFlex`
  * `flex_model/optimization/linear_model.py` — `LinearModel`
-/

namespace FlexModel

/-- From `flex_model/core/access_state.py`: one discrete operating point. -/
structure AccessState where
  name : String
  utilisation : ℚ
  description : String
deriving Repr, DecidableEq

/-- From `flex_model/core/flex_unit.py`, class `FlexUnit`: the base-class fields.
`availability_fn` is the resolved callable `alpha(t)` (default `fun _ => 1`);
`E_plus`/`E_minus` are the mutable energy headroom, `P_draw`/`P_inject` the
last commanded powers, `time_in_active_state` the duration counter
(`_time_in_active_state` in the source). -/
structure FlexUnit where
  name : String
  C_spec : ℚ
  availability_fn : ℤ → ℚ
  access_states : List AccessState
  E_plus : ℚ
  E_minus : ℚ
  P_draw : ℚ
  P_inject : ℚ
  time_in_active_state : ℤ

/-- Python method `FlexUnit.availability(t)`:
`max(0.0, min(1.0, self._availability_fn(t)))`. -/
def FlexUnit.availability (u : FlexUnit) (t : ℤ) : ℚ :=
  max 0 (min 1 (u.availability_fn t))

/-- Python method `FlexUnit.capacity(t) = C_spec * availability(t)`. -/
def FlexUnit.capacity (u : FlexUnit) (t : ℤ) : ℚ :=
  u.C_spec * u.availability t

/-- Python method
`FlexUnit.update_state(t, dt_hours, P_draw_cmd, P_inject_cmd, P_loss, P_gain)`:
clips the commands to be non-negative, stores them, converts powers to
energies for the step, and clamps each headroom accumulator into
`[0, capacity(t)]`.  The Python method mutates in place and returns `None`;
here it returns the updated state. -/
def FlexUnit.update_state (u : FlexUnit) (t : ℤ) (dt_hours : ℚ)
    (P_draw_cmd P_inject_cmd : ℚ) (P_loss : ℚ := 0) (P_gain : ℚ := 0) :
    FlexUnit :=
  let P_draw := max 0 P_draw_cmd
  let P_inject := max 0 P_inject_cmd
  let E_draw := P_draw * dt_hours
  let E_inject := P_inject * dt_hours
  let E_gain := P_gain * dt_hours
  let E_loss := P_loss * dt_hours
  let delta_plus := E_inject - E_draw + E_gain - E_loss
  let delta_minus := E_draw - E_inject - E_gain + E_loss
  { u with
    P_draw := P_draw
    P_inject := P_inject
    E_plus := max 0 (min (u.E_plus + delta_plus) (u.capacity t))
    E_minus := max 0 (min (u.E_minus + delta_minus) (u.capacity t)) }

/-- Python method `FlexUnit.reset_state(E_plus_init, E_minus_init)`. -/
def FlexUnit.reset_state (u : FlexUnit) (E_plus_init E_minus_init : ℚ) :
    FlexUnit :=
  { u with
    E_plus := max 0 E_plus_init
    E_minus := max 0 E_minus_init
    P_draw := 0
    P_inject := 0
    time_in_active_state := 0 }

/-- A concrete `FlexUnit` with negative nameplate capacity; `FlexUnit.__init__`
performs no validation, so such a unit is constructible. -/
def negCapUnit : FlexUnit :=
  { name := "neg"
    C_spec := -1
    availability_fn := fun _ => 1
    access_states := []
    E_plus := 0
    E_minus := 0
    P_draw := 0
    P_inject := 0
    time_in_active_state := 0 }

/-! ## `flex_model/optimization/linear_model.py` -/

/-- A 2-D numpy array, abstracted to its shape and entries (only the shape is
inspected by `LinearModel.__post_init__`). -/
structure NpMatrix where
  nrows : ℕ
  ncols : ℕ
  entry : ℕ → ℕ → ℚ

/-- The `LinearModel` dataclass fields.  `var_bounds` entries are
`(lower, upper)` with `none` standing for Python's `None` (unbounded above);
`power_indices` is the `dict` timestep → list of `(var_index, coefficient)`,
represented as an association list in insertion order. -/
structure LinearModel where
  name : String
  n_timesteps : ℕ
  n_vars : ℕ
  var_names : List String
  var_bounds : List (ℚ × Option ℚ)
  cost_coefficients : List ℚ
  A_eq : Option NpMatrix
  b_eq : Option (List ℚ)
  A_ub : Option NpMatrix
  b_ub : Option (List ℚ)
  power_indices : List (ℕ × List (ℕ × ℚ))

/-- The `A_eq`/`b_eq` (resp. `A_ub`/`b_ub`) checks of
`LinearModel.__post_init__`: when the matrix is present its column count must
equal `n_vars`, and the right-hand side must be present with length equal to
the matrix's row count. -/
def checkSystem (tag : String) (A : Option NpMatrix) (b : Option (List ℚ))
    (n_vars : ℕ) : Except String Unit :=
  match A with
  | none => .ok ()
  | some M =>
    if M.ncols ≠ n_vars then
      .error (tag ++ " columns != n_vars")
    else
      match b with
      | none => .error ("b_" ++ tag ++ " length must match " ++ tag ++ " rows")
      | some v =>
        if v.length ≠ M.nrows then
          .error ("b_" ++ tag ++ " length must match " ++ tag ++ " rows")
        else .ok ()

/-- Constructing a `LinearModel`: the dataclass runs `__post_init__`, which
validates all length/shape relationships and raises `ValueError` on the first
violation; on success the constructed object is returned. -/
def mkLinearModel (name : String) (n_timesteps n_vars : ℕ)
    (var_names : List String) (var_bounds : List (ℚ × Option ℚ))
    (cost_coefficients : List ℚ)
    (A_eq : Option NpMatrix) (b_eq : Option (List ℚ))
    (A_ub : Option NpMatrix) (b_ub : Option (List ℚ))
    (power_indices : List (ℕ × List (ℕ × ℚ))) : Except String LinearModel :=
  if var_names.length ≠ n_vars then
    .error "var_names length != n_vars"
  else if var_bounds.length ≠ n_vars then
    .error "var_bounds length != n_vars"
  else if cost_coefficients.length ≠ n_vars then
    .error "cost_coefficients length != n_vars"
  else
    match checkSystem "A_eq" A_eq b_eq n_vars with
    | .error e => .error e
    | .ok _ =>
      match checkSystem "A_ub" A_ub b_ub n_vars with
      | .error e => .error e
      | .ok _ =>
        .ok { name := name, n_timesteps := n_timesteps, n_vars := n_vars,
              var_names := var_names, var_bounds := var_bounds,
              cost_coefficients := cost_coefficients,
              A_eq := A_eq, b_eq := b_eq, A_ub := A_ub, b_ub := b_ub,
              power_indices := power_indices }

/-! ## `flex_model/assets/balancing_market.py` -/

/-- Class `BalancingMarketCost`: a `CostModel` with `c_inv = 0`, `n_lifetime = 1`,
`c_fix = 0`, `p_int = 0` fixed by its constructor; `p_E_buy` and `p_E_sell`
are the price functions after `TimeDependentValue` resolution. -/
structure BalancingMarketCost where
  name : String
  c_inv : ℚ
  n_lifetime : ℚ
  c_fix : ℚ
  p_int : ℚ
  p_E_buy : ℤ → ℚ
  p_E_sell : ℤ → ℚ

/-- Python constructor `BalancingMarketCost.__init__(name, p_E_buy, p_E_sell)`. -/
def mkBalancingMarketCost (name : String) (p_E_buy p_E_sell : ℤ → ℚ) :
    BalancingMarketCost :=
  { name := name, c_inv := 0, n_lifetime := 1, c_fix := 0, p_int := 0,
    p_E_buy := p_E_buy, p_E_sell := p_E_sell }

/-- The activation record passed to `BalancingMarketCost.step_cost`: a dict
whose required keys are `P_grid_import`, `P_grid_export`, `dt_hours`; a
`none` field models a missing key. -/
structure Activation where
  P_grid_import : Option ℚ
  P_grid_export : Option ℚ
  dt_hours : Option ℚ

/-- Modelled from the spec: `CostModel._validate_activation_keys` is defined
in `flex_model/core/cost_model.py`, which is not among the sources (only its
caller `BalancingMarketCost.step_cost` is); per the spec, a cost model
"receiving an activation record lacking a required field raises immediately".
The required keys here are the three fields of `Activation`. -/
def validate_activation_keys (activation : Activation) : Except String Unit :=
  match activation.P_grid_import, activation.P_grid_export,
        activation.dt_hours with
  | some _, some _, some _ => .ok ()
  | _, _, _ => .error "activation missing required keys"

/-- Python method `BalancingMarketCost.step_cost(t, flex_state, activation)`.
The unused `flex_state` parameter is omitted.  The keys are validated first;
with all keys present the settlement cost is
`E_import * p_E_buy(t) - E_export * p_E_sell(t)`.  (The fallback arm of the
inner match is the `KeyError` a Python dict lookup would raise; it is
unreachable after validation.) -/
def BalancingMarketCost.step_cost (c : BalancingMarketCost) (t : ℤ)
    (activation : Activation) : Except String ℚ :=
  match validate_activation_keys activation with
  | .error e => .error e
  | .ok _ =>
    match activation.P_grid_import, activation.P_grid_export,
          activation.dt_hours with
    | some P_import, some P_export, some dt_hours =>
      let E_import := P_import * dt_hours
      let E_export := P_export * dt_hours
      let cost_import := E_import * c.p_E_buy t
      let revenue_export := E_export * c.p_E_sell t
      .ok (cost_import - revenue_export)
    | _, _, _ => .error "activation missing required keys"

/-- Class `BalancingMarketFlex`: cost model plus the operational tracking counters
`_total_throughput_kwh`, `_total_cost_eur`, `_num_activations`. -/
structure BalancingMarketFlex where
  cost_model : BalancingMarketCost
  name : String
  total_throughput_kwh : ℚ
  total_cost_eur : ℚ
  num_activations : ℕ

/-- The dictionary returned by `BalancingMarketFlex.evaluate_operation`. -/
structure EvalResult where
  feasible : Bool
  cost : ℚ
  violations : List String
  E_import : ℚ
  E_export : ℚ

/-- Python method `BalancingMarketFlex.evaluate_operation(t, dt_hours,
P_grid_import,
P_grid_export)`: builds the activation dict, computes the step cost, and
returns the result dict; `self` is not assigned to, so the asset is returned
unchanged alongside the result. -/
def BalancingMarketFlex.evaluate_operation (a : BalancingMarketFlex) (t : ℤ)
    (dt_hours P_grid_import P_grid_export : ℚ) :
    Except String (EvalResult × BalancingMarketFlex) := do
  let activation : Activation :=
    { P_grid_import := some P_grid_import
      P_grid_export := some P_grid_export
      dt_hours := some dt_hours }
  let cost ← a.cost_model.step_cost t activation
  pure ({ feasible := true
          cost := cost
          violations := []
          E_import := P_grid_import * dt_hours
          E_export := P_grid_export * dt_hours }, a)

/-- Python method `BalancingMarketFlex.execute_operation(t, dt_hours,
P_grid_import,
P_grid_export)`: computes the step cost, then accumulates
`(P_grid_import + P_grid_export) * dt_hours` into `_total_throughput_kwh`,
the cost into `_total_cost_eur`, and increments `_num_activations`. -/
def BalancingMarketFlex.execute_operation (a : BalancingMarketFlex) (t : ℤ)
    (dt_hours P_grid_import P_grid_export : ℚ) :
    Except String BalancingMarketFlex := do
  let activation : Activation :=
    { P_grid_import := some P_grid_import
      P_grid_export := some P_grid_export
      dt_hours := some dt_hours }
  let cost ← a.cost_model.step_cost t activation
  let throughput := (P_grid_import + P_grid_export) * dt_hours
  pure { a with
         total_throughput_kwh := a.total_throughput_kwh + throughput
         total_cost_eur := a.total_cost_eur + cost
         num_activations := a.num_activations + 1 }

/-- Python method `BalancingMarketFlex.get_metrics()`. -/
def BalancingMarketFlex.get_metrics (a : BalancingMarketFlex) : ℚ × ℚ × ℕ :=
  (a.total_throughput_kwh, a.total_cost_eur, a.num_activations)

/-- Python method `BalancingMarketFlex.get_linear_model(n_timesteps, dt_hours)`:
`2 * n_timesteps` variables (imports then exports), bounds `(0.0, None)`,
cost coefficients `p_E_buy(t) * dt` for imports and `-p_E_sell(t) * dt` for
exports, no constraint systems, and power indices `[(t, +1), (n + t, -1)]`
per timestep; the `LinearModel` constructor (with its validation) is then
applied. -/
def BalancingMarketFlex.get_linear_model (a : BalancingMarketFlex)
    (n_timesteps : ℕ) (dt_hours : ℚ) : Except String LinearModel :=
  let n_vars := 2 * n_timesteps
  let var_names :=
    (List.range n_timesteps).map
      (fun t => a.name ++ "_P_import_" ++ toString t) ++
    (List.range n_timesteps).map
      (fun t => a.name ++ "_P_export_" ++ toString t)
  let var_bounds := List.replicate n_vars ((0 : ℚ), (none : Option ℚ))
  let cost_coefficients :=
    (List.range n_vars).map fun i =>
      if i < n_timesteps then a.cost_model.p_E_buy i * dt_hours
      else -a.cost_model.p_E_sell (i - n_timesteps) * dt_hours
  let power_indices :=
    (List.range n_timesteps).map fun t =>
      (t, [(t, (1 : ℚ)), (n_timesteps + t, (-1 : ℚ))])
  mkLinearModel a.name n_timesteps n_vars var_names var_bounds
    cost_coefficients none none none none power_indices

/-! ## Theorems -/

/-- C1 (counterexample): the claim quantifies over every `FlexUnit`, but
`FlexUnit.__init__` does not validate `C_spec`; with `C_spec = -1` the
capacity is negative and after `update_state(0, 1, 0, 0)` the clamped
headroom `E_plus = 0` exceeds `capacity(0) = -1`. -/
theorem update_state_headroom_cex :
    ¬ ((negCapUnit.update_state 0 1 0 0).E_plus ≤
        (negCapUnit.update_state 0 1 0 0).capacity 0) := by
  norm_num [negCapUnit, FlexUnit.update_state, FlexUnit.capacity,
    FlexUnit.availability]

/-- C1 (amended): for every `FlexUnit` with nonnegative nameplate capacity
`C_spec`, after any call to `update_state` both headrooms satisfy
`0 ≤ E_plus ≤ capacity(t)` and `0 ≤ E_minus ≤ capacity(t)`, for any prior
state and any rational arguments. -/
theorem update_state_headroom_bounds (u : FlexUnit) (t : ℤ)
    (dt P_d P_i P_l P_g : ℚ) (hC : 0 ≤ u.C_spec) :
    0 ≤ (u.update_state t dt P_d P_i P_l P_g).E_plus ∧
    (u.update_state t dt P_d P_i P_l P_g).E_plus ≤
      (u.update_state t dt P_d P_i P_l P_g).capacity t ∧
    0 ≤ (u.update_state t dt P_d P_i P_l P_g).E_minus ∧
    (u.update_state t dt P_d P_i P_l P_g).E_minus ≤
      (u.update_state t dt P_d P_i P_l P_g).capacity t := by
  have hcap : 0 ≤ u.C_spec * max 0 (min 1 (u.availability_fn t)) :=
    mul_nonneg hC (le_max_left 0 _)
  simp only [FlexUnit.update_state, FlexUnit.capacity, FlexUnit.availability]
  exact ⟨le_max_left 0 _, max_le hcap (min_le_right _ _),
         le_max_left 0 _, max_le hcap (min_le_right _ _)⟩

/-- A concrete `FlexUnit` with positive capacity, used as a witness input. -/
def demoUnit : FlexUnit :=
  { name := "demo"
    C_spec := 2
    availability_fn := fun _ => 1
    access_states := []
    E_plus := 1
    E_minus := 1
    P_draw := 0
    P_inject := 0
    time_in_active_state := 0 }

/-- Witness for C1's theorem at `demoUnit` with a concrete update call. -/
theorem update_state_headroom_bounds_witness :
    0 ≤ demoUnit.C_spec ∧
    (0 ≤ (demoUnit.update_state 0 1 5 3 0 0).E_plus ∧
     (demoUnit.update_state 0 1 5 3 0 0).E_plus ≤
       (demoUnit.update_state 0 1 5 3 0 0).capacity 0 ∧
     0 ≤ (demoUnit.update_state 0 1 5 3 0 0).E_minus ∧
     (demoUnit.update_state 0 1 5 3 0 0).E_minus ≤
       (demoUnit.update_state 0 1 5 3 0 0).capacity 0) :=
  ⟨by decide, update_state_headroom_bounds demoUnit 0 1 5 3 0 0 (by decide)⟩

/-- C2: `update_state` clamps the two commands to `≥ 0`, stores them in
`P_draw`/`P_inject`, updates `E_plus` and `E_minus` by the clamped update
rule with each command's energy term equal to the clamped power times
`dt_hours` (gain and loss powers are used as given), and changes no other
field of the unit. -/
theorem update_state_spec (u : FlexUnit) (t : ℤ)
    (dt P_d_cmd P_i_cmd P_l P_g : ℚ) :
    u.update_state t dt P_d_cmd P_i_cmd P_l P_g =
      { u with
        P_draw := max 0 P_d_cmd
        P_inject := max 0 P_i_cmd
        E_plus := max 0 (min (u.E_plus +
            (max 0 P_i_cmd * dt - max 0 P_d_cmd * dt + P_g * dt - P_l * dt))
          (u.capacity t))
        E_minus := max 0 (min (u.E_minus +
            (max 0 P_d_cmd * dt - max 0 P_i_cmd * dt - P_g * dt + P_l * dt))
          (u.capacity t)) } := rfl

/-- A concrete market cost model used as a witness input. -/
def demoCost : BalancingMarketCost :=
  mkBalancingMarketCost "bm" (fun _ => 1/4) (fun _ => 3/20)

/-- A concrete market asset used as a witness input. -/
def demoAsset : BalancingMarketFlex :=
  { cost_model := demoCost
    name := "bm"
    total_throughput_kwh := 0
    total_cost_eur := 0
    num_activations := 0 }

/-- C3: `BalancingMarketFlex.evaluate_operation` is side-effect-free (the
asset it returns is the input asset, so `_total_throughput_kwh`,
`_total_cost_eur` and `_num_activations` are unchanged), and the cost it
reports is exactly what an immediately following `execute_operation` with
identical arguments adds to `_total_cost_eur`. -/
theorem evaluate_execute_parity (a : BalancingMarketFlex) (t : ℤ)
    (dt_hours P_grid_import P_grid_export : ℚ) :
    ∃ r, a.evaluate_operation t dt_hours P_grid_import P_grid_export =
        .ok (r, a) ∧
      a.execute_operation t dt_hours P_grid_import P_grid_export =
        .ok { a with
          total_throughput_kwh := a.total_throughput_kwh +
            (P_grid_import + P_grid_export) * dt_hours
          total_cost_eur := a.total_cost_eur + r.cost
          num_activations := a.num_activations + 1 } :=
  ⟨_, rfl, rfl⟩

/-- C4: for non-negative import/export powers and time step,
`evaluate_operation` succeeds with `feasible = True` and an empty
violations list. -/
theorem evaluate_operation_always_feasible (a : BalancingMarketFlex) (t : ℤ)
    (dt_hours P_grid_import P_grid_export : ℚ)
    (hi : 0 ≤ P_grid_import) (he : 0 ≤ P_grid_export) (hdt : 0 ≤ dt_hours) :
    ∃ r a', a.evaluate_operation t dt_hours P_grid_import P_grid_export =
        .ok (r, a') ∧ r.feasible = true ∧ r.violations = [] :=
  ⟨_, _, rfl, rfl, rfl⟩

/-- Witness for C4's theorem at `demoAsset` with a concrete operation. -/
theorem evaluate_operation_always_feasible_witness :
    (0 ≤ (50 : ℚ) ∧ 0 ≤ (0 : ℚ) ∧ 0 ≤ (1/4 : ℚ)) ∧
    ∃ r a', demoAsset.evaluate_operation 0 (1/4) 50 0 = .ok (r, a') ∧
      r.feasible = true ∧ r.violations = [] :=
  ⟨⟨by norm_num, le_refl 0, by norm_num⟩,
   evaluate_operation_always_feasible demoAsset 0 (1/4) 50 0
     (by norm_num) (le_refl 0) (by norm_num)⟩

/-- C5: the settlement cost is
`E_import * p_E_buy(t) - E_export * p_E_sell(t)` with
`E_import = P_grid_import * dt_hours` and
`E_export = P_grid_export * dt_hours`; it is both the value returned by
`BalancingMarketCost.step_cost` and the `cost` field of
`evaluate_operation`'s result. -/
theorem step_cost_settlement_formula (a : BalancingMarketFlex) (t : ℤ)
    (dt_hours P_grid_import P_grid_export : ℚ) :
    a.cost_model.step_cost t
        ⟨some P_grid_import, some P_grid_export, some dt_hours⟩ =
      .ok (P_grid_import * dt_hours * a.cost_model.p_E_buy t -
           P_grid_export * dt_hours * a.cost_model.p_E_sell t) ∧
    ∃ r a', a.evaluate_operation t dt_hours P_grid_import P_grid_export =
        .ok (r, a') ∧
      r.cost = P_grid_import * dt_hours * a.cost_model.p_E_buy t -
               P_grid_export * dt_hours * a.cost_model.p_E_sell t :=
  ⟨rfl, _, _, rfl, rfl⟩

/-- C9: `BalancingMarketCost.step_cost` errors whenever the activation
record lacks any of the required keys `P_grid_import`, `P_grid_export`,
`dt_hours`, and with all keys present it returns the settlement cost (it is
a pure function of its arguments, so no state is mutated). -/
theorem step_cost_missing_keys (c : BalancingMarketCost) (t : ℤ)
    (act : Activation) :
    (act.P_grid_import = none ∨ act.P_grid_export = none ∨
        act.dt_hours = none →
      ∃ msg, c.step_cost t act = .error msg) ∧
    (∀ P_i P_e dt, act.P_grid_import = some P_i →
      act.P_grid_export = some P_e → act.dt_hours = some dt →
      c.step_cost t act =
        .ok (P_i * dt * c.p_E_buy t - P_e * dt * c.p_E_sell t)) := by
  obtain ⟨pi, pe, dth⟩ := act
  constructor
  · intro h
    cases pi <;> cases pe <;> cases dth <;>
      first
        | exact ⟨_, rfl⟩
        | simp_all
  · intro P_i P_e dt h1 h2 h3
    simp only at h1 h2 h3
    subst h1; subst h2; subst h3
    rfl

/-- Witness for C9's theorem: an activation missing `dt_hours` makes
`step_cost` error. -/
theorem step_cost_missing_keys_witness :
    ∃ msg, demoCost.step_cost 0 ⟨some 50, some 0, none⟩ = .error msg :=
  (step_cost_missing_keys demoCost 0 ⟨some 50, some 0, none⟩).1
    (Or.inr (Or.inr rfl))

/-- C10: every `execute_operation` call adds the gross quantity
`(P_grid_import + P_grid_export) * dt_hours` to `_total_throughput_kwh`,
adds the settlement step cost to `_total_cost_eur`, increments
`_num_activations` by one, and changes nothing else. -/
theorem execute_operation_spec (a : BalancingMarketFlex) (t : ℤ)
    (dt_hours P_grid_import P_grid_export : ℚ) :
    a.execute_operation t dt_hours P_grid_import P_grid_export =
      .ok { a with
        total_throughput_kwh := a.total_throughput_kwh +
          (P_grid_import + P_grid_export) * dt_hours
        total_cost_eur := a.total_cost_eur +
          (P_grid_import * dt_hours * a.cost_model.p_E_buy t -
           P_grid_export * dt_hours * a.cost_model.p_E_sell t)
        num_activations := a.num_activations + 1 } := rfl

/-- The constraint-system check of `__post_init__` succeeds exactly when a
present matrix has `n_vars` columns and a right-hand side of matching
length. -/
theorem checkSystem_ok_iff (tag : String) (A : Option NpMatrix)
    (b : Option (List ℚ)) (n : ℕ) :
    checkSystem tag A b n = .ok () ↔
      ∀ M, A = some M → M.ncols = n ∧ ∃ v, b = some v ∧ v.length = M.nrows := by
  cases A with
  | none => simp [checkSystem]
  | some M =>
    cases b with
    | none =>
      simp only [checkSystem]
      split_ifs <;> simp_all
    | some v =>
      simp only [checkSystem]
      split_ifs with h1 h2 <;> simp_all

/-- C7: `LinearModel` construction succeeds exactly when every length/shape
relationship holds (`var_names`, `var_bounds`, `cost_coefficients` of length
`n_vars`; a present `A_eq` with `n_vars` columns and a `b_eq` of length equal
to its row count; likewise for `A_ub`/`b_ub`); otherwise `__post_init__`
raises at construction. -/
theorem linear_model_construction_validation
    (name : String) (n_timesteps n_vars : ℕ) (var_names : List String)
    (var_bounds : List (ℚ × Option ℚ)) (cost_coefficients : List ℚ)
    (A_eq : Option NpMatrix) (b_eq : Option (List ℚ))
    (A_ub : Option NpMatrix) (b_ub : Option (List ℚ))
    (power_indices : List (ℕ × List (ℕ × ℚ))) :
    (∃ lm, mkLinearModel name n_timesteps n_vars var_names var_bounds
        cost_coefficients A_eq b_eq A_ub b_ub power_indices =
        Except.ok lm) ↔
      (var_names.length = n_vars ∧ var_bounds.length = n_vars ∧
       cost_coefficients.length = n_vars ∧
       (∀ M, A_eq = some M → M.ncols = n_vars ∧
         ∃ v, b_eq = some v ∧ v.length = M.nrows) ∧
       (∀ M, A_ub = some M → M.ncols = n_vars ∧
         ∃ v, b_ub = some v ∧ v.length = M.nrows)) := by
  unfold mkLinearModel
  split_ifs with h1 h2 h3
  · simp only [reduceCtorEq, exists_false, false_iff]
    intro h
    exact h1 h.1
  · simp only [reduceCtorEq, exists_false, false_iff]
    intro h
    exact h2 h.2.1
  · simp only [reduceCtorEq, exists_false, false_iff]
    intro h
    exact h3 h.2.2.1
  · rcases hA : checkSystem "A_eq" A_eq b_eq n_vars with e | u
    · simp only [reduceCtorEq, exists_false, false_iff]
      intro h
      have hok := (checkSystem_ok_iff "A_eq" A_eq b_eq n_vars).mpr h.2.2.2.1
      rw [hA] at hok
      exact Except.noConfusion hok
    · obtain ⟨⟩ := u
      rcases hB : checkSystem "A_ub" A_ub b_ub n_vars with e | u2
      · simp only [reduceCtorEq, exists_false, false_iff]
        intro h
        have hok := (checkSystem_ok_iff "A_ub" A_ub b_ub n_vars).mpr h.2.2.2.2
        rw [hB] at hok
        exact Except.noConfusion hok
      · obtain ⟨⟩ := u2
        simp only [Except.ok.injEq, exists_eq', true_iff]
        exact ⟨not_ne_iff.mp h1, not_ne_iff.mp h2, not_ne_iff.mp h3,
               (checkSystem_ok_iff "A_eq" A_eq b_eq n_vars).mp hA,
               (checkSystem_ok_iff "A_ub" A_ub b_ub n_vars).mp hB⟩

/-- Witness for C7's theorem: a dimensionally consistent construction
succeeds. -/
theorem linear_model_construction_validation_witness :
    ∃ lm, mkLinearModel "w" 1 2 ["a", "b"] [(0, none), (0, none)] [1, 2]
      none none none none [] = Except.ok lm :=
  (linear_model_construction_validation "w" 1 2 ["a", "b"]
      [(0, none), (0, none)] [1, 2] none none none none []).mpr
    ⟨rfl, rfl, rfl, fun M h => Option.noConfusion h,
     fun M h => Option.noConfusion h⟩

/-- C8 (counterexample): constructing a `LinearModel` with duplicate
`var_names` of the correct length succeeds — `__post_init__` checks only
lengths and shapes, never uniqueness, so no error is raised. -/
theorem linear_model_duplicate_names_cex :
    ∃ lm, mkLinearModel "m" 1 2 ["x", "x"] [(0, none), (0, none)] [1, 1]
      none none none none [] = Except.ok lm :=
  ⟨_, rfl⟩

/-- C8 (amended): constructing a `LinearModel` whose `var_names` list has
the correct length `n_vars` but contains duplicate names succeeds (no
constraint matrices supplied): uniqueness of `var_names` is not validated
at construction. -/
theorem linear_model_duplicates_not_validated
    (name : String) (n_timesteps n_vars : ℕ) (var_names : List String)
    (var_bounds : List (ℚ × Option ℚ)) (cost_coefficients : List ℚ)
    (power_indices : List (ℕ × List (ℕ × ℚ)))
    (hdup : ¬ var_names.Nodup)
    (h1 : var_names.length = n_vars) (h2 : var_bounds.length = n_vars)
    (h3 : cost_coefficients.length = n_vars) :
    ∃ lm, mkLinearModel name n_timesteps n_vars var_names var_bounds
      cost_coefficients none none none none power_indices =
      Except.ok lm := by
  unfold mkLinearModel
  rw [if_neg (not_ne_iff.mpr h1), if_neg (not_ne_iff.mpr h2),
      if_neg (not_ne_iff.mpr h3)]
  exact ⟨_, rfl⟩

/-- Witness for C8's amended theorem at a concrete duplicate-name input. -/
theorem linear_model_duplicates_not_validated_witness :
    (¬ (["y", "y", "z"] : List String).Nodup ∧
      (["y", "y", "z"] : List String).length = 3 ∧
      ([((0 : ℚ), (none : Option ℚ)), (0, none), (0, none)]).length = 3 ∧
      ([(1 : ℚ), 2, 3]).length = 3) ∧
    ∃ lm, mkLinearModel "m" 1 3 ["y", "y", "z"]
      [(0, none), (0, none), (0, none)] [1, 2, 3]
      none none none none [] = Except.ok lm :=
  ⟨⟨by decide, rfl, rfl, rfl⟩,
   linear_model_duplicates_not_validated "m" 1 3 ["y", "y", "z"]
     [(0, none), (0, none), (0, none)] [1, 2, 3] [] (by decide) rfl rfl rfl⟩

/-- C6: `get_linear_model` succeeds and yields exactly `2 * n_timesteps`
variables, every bound `(0, None)`, no constraint systems, import cost
coefficient `p_E_buy(t) * dt_hours` and export cost coefficient
`-p_E_sell(t) * dt_hours`, and power indices
`[(t, +1.0), (n_timesteps + t, -1.0)]` for each timestep `t < n_timesteps`. -/
theorem get_linear_model_spec (a : BalancingMarketFlex) (n : ℕ) (dt : ℚ) :
    ∃ lm, a.get_linear_model n dt = Except.ok lm ∧
      lm.n_vars = 2 * n ∧
      lm.var_bounds = List.replicate (2 * n) ((0 : ℚ), (none : Option ℚ)) ∧
      lm.A_eq = none ∧ lm.b_eq = none ∧ lm.A_ub = none ∧ lm.b_ub = none ∧
      (∀ t : ℕ, t < n →
        lm.cost_coefficients[t]? = some (a.cost_model.p_E_buy t * dt) ∧
        lm.cost_coefficients[n + t]? =
          some (-a.cost_model.p_E_sell t * dt)) ∧
      lm.power_indices =
        (List.range n).map
          (fun t => (t, [(t, (1 : ℚ)), (n + t, (-1 : ℚ))])) := by
  have he : a.get_linear_model n dt = Except.ok
      { name := a.name
        n_timesteps := n
        n_vars := 2 * n
        var_names :=
          (List.range n).map
            (fun t => a.name ++ "_P_import_" ++ toString t) ++
          (List.range n).map
            (fun t => a.name ++ "_P_export_" ++ toString t)
        var_bounds := List.replicate (2 * n) ((0 : ℚ), (none : Option ℚ))
        cost_coefficients := (List.range (2 * n)).map (fun i =>
          if i < n then a.cost_model.p_E_buy i * dt
          else -a.cost_model.p_E_sell (i - n) * dt)
        A_eq := none
        b_eq := none
        A_ub := none
        b_ub := none
        power_indices :=
          (List.range n).map
            (fun t => (t, [(t, (1 : ℚ)), (n + t, (-1 : ℚ))])) } := by
    unfold BalancingMarketFlex.get_linear_model mkLinearModel
    rw [if_neg (by simp; omega), if_neg (by simp), if_neg (by simp)]
    rfl
  refine ⟨_, he, rfl, rfl, rfl, rfl, rfl, rfl, ?_, rfl⟩
  intro t ht
  have hcast : ((n + t : ℕ) : ℤ) - (n : ℤ) = (t : ℤ) := by push_cast; ring
  constructor
  · rw [List.getElem?_map, List.getElem?_range (by omega : t < 2 * n)]
    simp only [Option.map_some']
    rw [if_pos ht]
  · rw [List.getElem?_map, List.getElem?_range (by omega : n + t < 2 * n)]
    simp only [Option.map_some']
    rw [if_neg (by omega), hcast]

/-- Witness for C6's theorem at `demoAsset` with a two-step horizon. -/
theorem get_linear_model_spec_witness :
    ∃ lm, demoAsset.get_linear_model 2 (1/4) = Except.ok lm ∧
      lm.n_vars = 2 * 2 ∧
      lm.var_bounds = List.replicate (2 * 2) ((0 : ℚ), (none : Option ℚ)) ∧
      lm.A_eq = none ∧ lm.b_eq = none ∧ lm.A_ub = none ∧ lm.b_ub = none ∧
      (∀ t : ℕ, t < 2 →
        lm.cost_coefficients[t]? =
          some (demoAsset.cost_model.p_E_buy t * (1/4)) ∧
        lm.cost_coefficients[2 + t]? =
          some (-demoAsset.cost_model.p_E_sell t * (1/4))) ∧
      lm.power_indices =
        (List.range 2).map
          (fun t => (t, [(t, (1 : ℚ)), (2 + t, (-1 : ℚ))])) :=
  get_linear_model_spec demoAsset 2 (1/4)

end FlexModel
